import Mathlib

/-
Shallow embedding of the wgpu-wayland-window program (src/main.rs).

The program is a single-threaded Wayland client: an AppState struct, one
Dispatch handler per protocol object, and a main loop that alternates a
blocking event dispatch with a draw call guarded by the configured flag.
Each Rust handler is embedded as a pure Lean function from AppState and an
event to a StepOut: the mutated state, the ordered list of outgoing
requests and GPU operations it performed (the effect trace), and an
optional abort message modelling a Rust panic raised by expect/unwrap.
State mutations made before a panic are kept, as in Rust; effects emitted
before a panic are kept in the trace. External GPU calls that the program
unwraps (adapter/device requests, frame acquisition) are modelled as
succeeding, since the claims under study concern the protocol logic, not
GPU failure. Machine integers (i32 sizes, u32 serials) carry no arithmetic
in this code, so they are embedded as Int and Nat directly; the lossy
i32-to-u32 cast in configure_wgpu is noted where it occurs.
-/

structure WindowSize where
  width : Int
  height : Int
  deriving DecidableEq, Repr

/- impl Default for WindowSize: 320 x 320. -/
def WindowSize.default : WindowSize :=
  { width := 320, height := 320 }

/-
struct AppState. Wayland and wgpu handles are opaque to the logic: only
their presence matters, so Option<T> handles become Option Unit.
-/
structure AppState where
  running : Bool
  wl_surface : Option Unit
  wm_base : Option Unit
  xdg_surface : Option Unit
  xdg_toplevel : Option Unit
  configured : Bool
  size : Option WindowSize
  pending_resize : Option WindowSize
  wgpu_state : Option Unit
  deriving DecidableEq, Repr

/- impl Default for AppState. -/
def AppState.initial : AppState :=
  { running := true
    wl_surface := none
    wm_base := none
    xdg_surface := none
    xdg_toplevel := none
    size := none
    pending_resize := none
    configured := false
    wgpu_state := none }

/- wl_registry events (the Global arm is handled; GlobalRemove is ignored). -/
inductive RegistryEvent where
  | global (name : Nat) (interface : String) (version : Nat)
  | globalRemove (name : Nat)
  deriving DecidableEq, Repr

/- xdg_wm_base events. -/
inductive WmBaseEvent where
  | ping (serial : Nat)
  deriving DecidableEq, Repr

/- xdg_surface events. -/
inductive XdgSurfaceEvent where
  | configure (serial : Nat)
  deriving DecidableEq, Repr

/- xdg_toplevel events; otherEvent covers the ignored wildcard arm. -/
inductive ToplevelEvent where
  | close
  | configure (width : Int) (height : Int)
  | otherEvent
  deriving DecidableEq, Repr

/- One incoming protocol event, tagged by the object it targets. -/
inductive Event where
  | registry (e : RegistryEvent)
  | wmBase (e : WmBaseEvent)
  | xdgSurface (e : XdgSurfaceEvent)
  | toplevel (e : ToplevelEvent)
  deriving DecidableEq, Repr

/- Observable actions: outgoing protocol requests and GPU operations. -/
inductive Effect where
  | bindCompositor (name : Nat) (version : Nat)
  | createSurface
  | bindWmBase (name : Nat) (version : Nat)
  | getXdgSurface
  | getToplevel
  | setTitle (t : String)
  | setAppId (t : String)
  | commit
  | pong (serial : Nat)
  | ackConfigure (serial : Nat)
  | configureWgpu (width : Int) (height : Int)
  | draw
  deriving DecidableEq, Repr

/- Result of running a handler or a program phase. -/
structure StepOut where
  state : AppState
  effects : List Effect
  abortMsg : Option String
  deriving DecidableEq, Repr

/-
AppState::init_xdg_surface: expects wm_base and wl_surface, then creates
the xdg_surface and toplevel, sets title and app id, and commits with no
buffer attached. The expect calls become abort messages.
-/
def AppState.init_xdg_surface (s : AppState) : StepOut :=
  match s.wm_base with
  | none => ⟨s, [], some "wm_base is None - Make sure to bind xdg_wm_base before trying to create a xdg_surface"⟩
  | some _ =>
    match s.wl_surface with
    | none => ⟨s, [], some "wl_surface is None - Create it via wl_compositor before attempting to create a xdg_surface"⟩
    | some _ =>
      ⟨{ s with xdg_surface := some (), xdg_toplevel := some () },
        [Effect.getXdgSurface, Effect.getToplevel, Effect.setTitle "receba",
          Effect.setAppId "EstamosAquiDaSilva.org", Effect.commit],
        none⟩

/-
AppState::configure_wgpu: expects wgpu_state, then configures the wgpu
surface with the given width and height (cast i32-to-u32 in the source;
the sizes that reach this call are passed through unchanged here).
Takes &self, so it mutates nothing: it returns only effects and a
possible abort.
-/
def AppState.configure_wgpu (s : AppState) (width : Int) (height : Int) :
    List Effect × Option String :=
  match s.wgpu_state with
  | none => ([], some "WgpuState is None - Make sure Wgpu is set up it before configuring")
  | some _ => ([Effect.configureWgpu width height], none)

/-
AppState::init_wgpu: expects wl_surface, then creates instance, surface,
adapter, device and queue. The GPU requests are modelled as succeeding;
the observable outcome is that wgpu_state becomes present.
-/
def AppState.init_wgpu (s : AppState) : StepOut :=
  match s.wl_surface with
  | none => ⟨s, [], some "wl_surface is None - Create it via wl_compositor before attempting to init wgpu"⟩
  | some _ => ⟨{ s with wgpu_state := some () }, [], none⟩

/-
fn draw: expects wgpu_state, acquires a frame, records a clear pass,
submits and presents. Acquisition is modelled as succeeding; the whole
render step is one draw effect.
-/
def draw (s : AppState) : List Effect × Option String :=
  match s.wgpu_state with
  | none => ([], some "WgpuState is None - Make sure Wgpu is set up before drawing")
  | some _ => ([Effect.draw], none)

/-
Dispatch<WlRegistry> for AppState: on a Global announcement, match the
interface name; wl_compositor is bound and a surface created immediately;
xdg_wm_base is bound and, if the surface exists and no xdg_surface exists
yet, init_xdg_surface runs at once.
-/
def registry_event (s : AppState) (e : RegistryEvent) : StepOut :=
  match e with
  | .global name interface version =>
    if interface = "wl_compositor" then
      ⟨{ s with wl_surface := some () },
        [Effect.bindCompositor name version, Effect.createSurface], none⟩
    else if interface = "xdg_wm_base" then
      let s1 : AppState := { s with wm_base := some () }
      if s1.wl_surface.isSome && s1.xdg_surface.isNone then
        let out := s1.init_xdg_surface
        ⟨out.state, Effect.bindWmBase name version :: out.effects, out.abortMsg⟩
      else
        ⟨s1, [Effect.bindWmBase name version], none⟩
    else
      ⟨s, [], none⟩
  | .globalRemove _ => ⟨s, [], none⟩

/- Dispatch<XdgWmBase> for AppState: answer Ping with pong. -/
def wm_base_event (s : AppState) (e : WmBaseEvent) : StepOut :=
  match e with
  | .ping serial => ⟨s, [Effect.pong serial], none⟩

/-
Dispatch<XdgSurface> for AppState: on Configure, ack the serial, then
take the pending resize if any, configure wgpu with it and promote it to
the current size, and finally set configured.
-/
def xdg_surface_event (s : AppState) (e : XdgSurfaceEvent) : StepOut :=
  match e with
  | .configure serial =>
    match s.pending_resize with
    | some size =>
      let s1 : AppState := { s with pending_resize := none }
      match s1.configure_wgpu size.width size.height with
      | (effs, some msg) => ⟨s1, Effect.ackConfigure serial :: effs, some msg⟩
      | (effs, none) =>
        ⟨{ s1 with size := some size, configured := true },
          Effect.ackConfigure serial :: effs, none⟩
    | none =>
      ⟨{ s with configured := true }, [Effect.ackConfigure serial], none⟩

/-
The pending-size expression of the toplevel Configure arm: a (0,0)
proposal means the client picks its own size and becomes the default;
anything else is stored literally.
-/
def resolveSize (width : Int) (height : Int) : WindowSize :=
  if (width, height) = ((0 : Int), (0 : Int)) then WindowSize.default
  else { width := width, height := height }

/-
Dispatch<XdgToplevel> for AppState: Close clears the running flag;
Configure records the proposed size as the pending resize.
-/
def toplevel_event (s : AppState) (e : ToplevelEvent) : StepOut :=
  match e with
  | .close => ⟨{ s with running := false }, [], none⟩
  | .configure width height =>
    ⟨{ s with pending_resize := some (resolveSize width height) }, [], none⟩
  | .otherEvent => ⟨s, [], none⟩

/- Route one event to the Dispatch impl for its object. -/
def dispatchEvent (s : AppState) (e : Event) : StepOut :=
  match e with
  | .registry re => registry_event s re
  | .wmBase we => wm_base_event s we
  | .xdgSurface xe => xdg_surface_event s xe
  | .toplevel te => toplevel_event s te

/-
One blocking_dispatch: deliver a batch of events in order to the
handlers. A panic in a handler aborts the process; later events of the
batch are not delivered.
-/
def dispatchEvents (s : AppState) (es : List Event) : StepOut :=
  match es with
  | [] => ⟨s, [], none⟩
  | e :: rest =>
    let out := dispatchEvent s e
    match out.abortMsg with
    | some msg => ⟨out.state, out.effects, some msg⟩
    | none =>
      let out2 := dispatchEvents out.state rest
      ⟨out2.state, out.effects ++ out2.effects, out2.abortMsg⟩

/-
One iteration of the application loop body: blocking_dispatch, then, if
configured, draw. The running flag is checked by the loop, not here.
-/
def loopIter (s : AppState) (batch : List Event) : StepOut :=
  let out := dispatchEvents s batch
  match out.abortMsg with
  | some msg => ⟨out.state, out.effects, some msg⟩
  | none =>
    if out.state.configured then
      match draw out.state with
      | (effs, abortM) => ⟨out.state, out.effects ++ effs, abortM⟩
    else
      ⟨out.state, out.effects, none⟩

/-
The while running loop, run over a finite schedule of event batches (one
batch per blocking_dispatch). The loop condition is checked before each
iteration, exactly as in the source.
-/
def runLoop (s : AppState) (batches : List (List Event)) : StepOut :=
  match batches with
  | [] => ⟨s, [], none⟩
  | b :: rest =>
    if s.running then
      let out := loopIter s b
      match out.abortMsg with
      | some msg => ⟨out.state, out.effects, some msg⟩
      | none =>
        let out2 := runLoop out.state rest
        ⟨out2.state, out.effects ++ out2.effects, out2.abortMsg⟩
    else
      ⟨s, [], none⟩

/-
fn main after connection setup: one initial blocking_dispatch on the
default state, then init_wgpu, then the application loop.
-/
def runMain (initialBatch : List Event) (batches : List (List Event)) : StepOut :=
  let out := dispatchEvents AppState.initial initialBatch
  match out.abortMsg with
  | some msg => ⟨out.state, out.effects, some msg⟩
  | none =>
    let out2 := out.state.init_wgpu
    match out2.abortMsg with
    | some msg => ⟨out2.state, out.effects ++ out2.effects, some msg⟩
    | none =>
      let out3 := runLoop out2.state batches
      ⟨out3.state, out.effects ++ out2.effects ++ out3.effects, out3.abortMsg⟩

/- Count the effects in a trace satisfying a predicate. -/
def countEffects (p : Effect → Bool) (l : List Effect) : Nat :=
  (l.filter p).length

def Effect.isCreateSurface : Effect → Bool
  | .createSurface => true
  | _ => false

def Effect.isGetToplevel : Effect → Bool
  | .getToplevel => true
  | _ => false

def Effect.isDraw : Effect → Bool
  | .draw => true
  | _ => false

def Effect.isConfigureWgpu : Effect → Bool
  | .configureWgpu _ _ => true
  | _ => false

/- Event predicates used to describe schedules. -/
def announcesWmBase : Event → Bool
  | .registry (.global _ interface _) => interface = "xdg_wm_base"
  | _ => false

def announcesCompositor : RegistryEvent → Bool
  | .global _ interface _ => interface = "wl_compositor"
  | _ => false

def isSurfaceConfigure : Event → Bool
  | .xdgSurface _ => true
  | _ => false

/- A burst of toplevel size proposals followed by one surface configure. -/
def sizeBurst (sizes : List (Int × Int)) (serial : Nat) : List Event :=
  (sizes.map fun p => Event.toplevel (ToplevelEvent.configure p.1 p.2))
    ++ [Event.xdgSurface (XdgSurfaceEvent.configure serial)]

/-
Basic counting lemmas over effect traces.
-/
theorem countEffects_nil (p : Effect → Bool) : countEffects p [] = 0 := rfl

theorem countEffects_cons (p : Effect → Bool) (e : Effect) (l : List Effect) :
    countEffects p (e :: l) = (if p e then 1 else 0) + countEffects p l := by
  simp only [countEffects, List.filter_cons]
  split <;> simp [Nat.add_comm]

theorem countEffects_append (p : Effect → Bool) (a b : List Effect) :
    countEffects p (a ++ b) = countEffects p a + countEffects p b := by
  simp [countEffects, List.filter_append]

theorem countEffects_eq_zero (p : Effect → Bool) (l : List Effect) :
    countEffects p l = 0 ↔ ∀ x ∈ l, p x = false := by
  simp [countEffects, List.filter_eq_nil_iff]

/-
Effect-shape lemmas for the handlers: init_xdg_surface never aborts when
its two preconditions hold, the registry handler never aborts, and no
event handler ever emits a draw effect (only the loop body draws).
-/
theorem init_xdg_surface_effects (s : AppState) :
    countEffects Effect.isDraw (s.init_xdg_surface).effects = 0 ∧
    countEffects Effect.isCreateSurface (s.init_xdg_surface).effects = 0 := by
  cases hw : s.wm_base <;> cases hs : s.wl_surface <;>
    simp [AppState.init_xdg_surface, hw, hs, countEffects, Effect.isDraw,
      Effect.isCreateSurface, List.filter]

theorem registry_abort_none (s : AppState) (g : RegistryEvent) :
    (registry_event s g).abortMsg = none := by
  cases g with
  | globalRemove n => rfl
  | global n interface v =>
    simp only [registry_event]
    split
    · rfl
    · split
      · split
        · next hguard =>
          rcases Bool.and_eq_true_iff.mp hguard with ⟨h1, h2⟩
          cases hs : s.wl_surface with
          | none => simp [hs] at h1
          | some u => simp [AppState.init_xdg_surface, hs]
        · rfl
      · rfl

/-
Concrete schedules used by the counterexample and scenario theorems.
-/
def c1ReadyState : AppState :=
  (runMain
    [Event.registry (RegistryEvent.global 1 "wl_compositor" 6),
      Event.registry (RegistryEvent.global 2 "xdg_wm_base" 5)]
    [[Event.toplevel (ToplevelEvent.configure 800 600),
      Event.xdgSurface (XdgSurfaceEvent.configure 1)]]).state

/-- C1: counterexample. The claim says the loop iteration that dispatched
the close event exits at the next loop check before any draw call. In the
code the draw guard runs after dispatch in the same iteration: from a
reachable configured state, the iteration that dispatches Close sets
running to false and still performs a draw before the loop condition is
re-checked. -/
theorem c1_counterexample :
    c1ReadyState.running = true ∧ c1ReadyState.configured = true ∧
    (dispatchEvents c1ReadyState [Event.toplevel ToplevelEvent.close]).state.running
      = false ∧
    (loopIter c1ReadyState [Event.toplevel ToplevelEvent.close]).effects
      = [Effect.draw] := by decide

/-- C2: counterexample. The claim says that if the registry announces only
wl_compositor and never xdg_wm_base, the process does not proceed past
initialization and reports a missing required capability. In the code no
such check exists: the whole startup sequence completes without any abort
and the main loop runs (here it answers a ping), so the process does
proceed past initialization. -/
theorem c2_counterexample :
    (runMain [Event.registry (RegistryEvent.global 1 "wl_compositor" 6)]
      [[Event.wmBase (WmBaseEvent.ping 9)]]).abortMsg = none ∧
    Effect.pong 9 ∈
      (runMain [Event.registry (RegistryEvent.global 1 "wl_compositor" 6)]
        [[Event.wmBase (WmBaseEvent.ping 9)]]).effects := by decide

/-- C3: counterexample. The claim says the base surface is created exactly
once for every announcement sequence containing wl_compositor, regardless
of repeated announcements. In the code every wl_compositor announcement
re-binds and re-creates the surface: two announcements create it twice. -/
theorem c3_counterexample :
    countEffects Effect.isCreateSurface
      (dispatchEvents AppState.initial
        [Event.registry (RegistryEvent.global 1 "wl_compositor" 6),
          Event.registry (RegistryEvent.global 1 "wl_compositor" 6)]).effects = 2 := by
  decide

/-- C9: the code at the failing input. A toplevel configure proposing
width 0 with nonzero height is stored literally as the pending size, and
the following acknowledged surface configure passes width 0 on to the
presentation-surface configuration, violating the stated invariant that
neither dimension is ever zero once it influences the presentation
surface. Only the exact pair (0,0) is translated to the default size. -/
theorem c9_zero_width_reaches_surface :
    (toplevel_event { AppState.initial with wgpu_state := some () }
        (ToplevelEvent.configure 0 500)).state.pending_resize
      = some { width := 0, height := 500 } ∧
    Effect.configureWgpu 0 500 ∈
      (dispatchEvents { AppState.initial with wgpu_state := some () }
        [Event.toplevel (ToplevelEvent.configure 0 500),
          Event.xdgSurface (XdgSurfaceEvent.configure 3)]).effects := by decide

/-- C10: if a surface configure is acknowledged while no pending size was
ever recorded, the configured flag becomes true while the current size is
still unset and no presentation-surface configuration has ever happened;
the next loop iteration then runs the render step against a presentation
surface that was never configured with any dimensions. -/
theorem c10_empty_configure_then_draw :
    (runMain
      [Event.registry (RegistryEvent.global 1 "wl_compositor" 6),
        Event.registry (RegistryEvent.global 2 "xdg_wm_base" 5)]
      [[Event.xdgSurface (XdgSurfaceEvent.configure 7)]]).state.configured = true ∧
    (runMain
      [Event.registry (RegistryEvent.global 1 "wl_compositor" 6),
        Event.registry (RegistryEvent.global 2 "xdg_wm_base" 5)]
      [[Event.xdgSurface (XdgSurfaceEvent.configure 7)]]).state.size = none ∧
    countEffects Effect.isConfigureWgpu
      (runMain
        [Event.registry (RegistryEvent.global 1 "wl_compositor" 6),
          Event.registry (RegistryEvent.global 2 "xdg_wm_base" 5)]
        [[Event.xdgSurface (XdgSurfaceEvent.configure 7)]]).effects = 0 ∧
    Effect.draw ∈
      (runMain
        [Event.registry (RegistryEvent.global 1 "wl_compositor" 6),
          Event.registry (RegistryEvent.global 2 "xdg_wm_base" 5)]
        [[Event.xdgSurface (XdgSurfaceEvent.configure 7)]]).effects := by decide

theorem dispatchEvent_no_draw (s : AppState) (e : Event) :
    Effect.draw ∉ (dispatchEvent s e).effects := by
  cases e with
  | registry re =>
    cases re with
    | globalRemove n => simp [dispatchEvent, registry_event]
    | global n interface v =>
      by_cases h1 : interface = "wl_compositor"
      · simp [dispatchEvent, registry_event, h1]
      · by_cases h2 : interface = "xdg_wm_base"
        · cases hs : s.wl_surface <;>
            simp [dispatchEvent, registry_event, h1, h2, AppState.init_xdg_surface, hs] <;>
            split <;> simp
        · simp [dispatchEvent, registry_event, h1, h2]
  | wmBase we => cases we with
    | ping serial => simp [dispatchEvent, wm_base_event]
  | xdgSurface xe =>
    cases xe with
    | configure serial =>
      cases hp : s.pending_resize with
      | none => simp [dispatchEvent, xdg_surface_event, hp]
      | some sz =>
        cases hg : s.wgpu_state <;>
          simp [dispatchEvent, xdg_surface_event, hp, AppState.configure_wgpu, hg]
  | toplevel te => cases te <;> simp [dispatchEvent, toplevel_event]

theorem dispatchEvents_no_draw (s : AppState) (es : List Event) :
    Effect.draw ∉ (dispatchEvents s es).effects := by
  induction es generalizing s with
  | nil => simp [dispatchEvents]
  | cons e rest ih =>
    simp only [dispatchEvents]
    split
    · next msg heq => exact dispatchEvent_no_draw s e
    · next heq =>
      simp only [List.mem_append, not_or]
      exact ⟨dispatchEvent_no_draw s e, ih _⟩

/-- C8: in every loop iteration, the render step runs exactly when the
configured flag is true after that iteration's event dispatch (and the
dispatch did not abort; the GPU context presence is part of the
characterization because draw would abort without it, emitting no render
work). In particular the render step is skipped entirely, as a no-op,
whenever configured is false. -/
theorem c8_draw_iff_configured (s : AppState) (b : List Event) :
    Effect.draw ∈ (loopIter s b).effects ↔
      ((dispatchEvents s b).abortMsg = none ∧
        (dispatchEvents s b).state.configured = true ∧
        (dispatchEvents s b).state.wgpu_state = some ()) := by
  simp only [loopIter]
  split
  · next msg heq => simp [heq, dispatchEvents_no_draw s b]
  · next heq =>
    split
    · next hconf =>
      cases hg : (dispatchEvents s b).state.wgpu_state with
      | none => simp [draw, hg, heq, hconf, dispatchEvents_no_draw s b]
      | some u => simp [draw, hg, heq, hconf, dispatchEvents_no_draw s b]
    · next hconf =>
      simp only [Bool.not_eq_true] at hconf
      simp [heq, hconf, dispatchEvents_no_draw s b]

theorem registry_create_count (s : AppState) (g : RegistryEvent) :
    countEffects Effect.isCreateSurface (registry_event s g).effects
      = if announcesCompositor g then 1 else 0 := by
  cases g with
  | globalRemove n => simp [registry_event, announcesCompositor, countEffects]
  | global n interface v =>
    by_cases h1 : interface = "wl_compositor"
    · simp [registry_event, announcesCompositor, h1, countEffects, List.filter,
        Effect.isCreateSurface]
    · by_cases h2 : interface = "xdg_wm_base"
      · cases hs : s.wl_surface <;>
          simp [registry_event, announcesCompositor, h1, h2,
            AppState.init_xdg_surface, hs, countEffects, List.filter,
            Effect.isCreateSurface] <;>
          split <;>
          simp [countEffects, List.filter, Effect.isCreateSurface]
      · simp [registry_event, announcesCompositor, h1, h2, countEffects, List.filter]

/-- C3: amended. For every starting state and every sequence of registry
events, the base surface is created exactly once per wl_compositor
announcement, independent of arrival order and of the other globals; so
it is created exactly once precisely when the announcement sequence
mentions wl_compositor exactly once, and a repeated announcement
re-creates it. -/
theorem c3_amended_create_per_announcement (s : AppState) (gs : List RegistryEvent) :
    countEffects Effect.isCreateSurface
      (dispatchEvents s (gs.map Event.registry)).effects
      = (gs.filter announcesCompositor).length := by
  induction gs generalizing s with
  | nil => simp [dispatchEvents, countEffects]
  | cons g rest ih =>
    simp only [List.map_cons, dispatchEvents]
    split
    · next msg heq =>
      simp only [dispatchEvent] at heq
      rw [registry_abort_none] at heq
      cases heq
    · next heq =>
      simp only [dispatchEvent, countEffects_append, List.filter_cons]
      rw [registry_create_count, ih]
      by_cases hg : announcesCompositor g <;> simp [hg, Nat.add_comm]


/-
Role-assignment accounting for C7: once xdg_surface is present it stays
present, and the role-assignment body (which emits getToplevel) runs only
from a state where it is absent, so a budget of one covers every run.
-/
def roleBudget (s : AppState) : Nat :=
  if s.xdg_surface = none then 1 else 0

theorem dispatchEvent_role_budget (s : AppState) (e : Event) :
    countEffects Effect.isGetToplevel (dispatchEvent s e).effects
      + roleBudget (dispatchEvent s e).state ≤ roleBudget s := by
  cases e with
  | registry re =>
    cases re with
    | globalRemove n => simp [dispatchEvent, registry_event, countEffects]
    | global n interface v =>
      by_cases h1 : interface = "wl_compositor"
      · simp [dispatchEvent, registry_event, h1, countEffects, List.filter,
          Effect.isGetToplevel, roleBudget]
      · by_cases h2 : interface = "xdg_wm_base"
        · simp only [dispatchEvent, registry_event]
          rw [if_neg h1, if_pos h2]
          split
          · next hguard =>
            rcases Bool.and_eq_true_iff.mp hguard with ⟨ha, hb⟩
            have hxdg : s.xdg_surface = none := by
              simpa [Option.isNone_iff_eq_none] using hb
            cases hs : s.wl_surface with
            | none => rw [hs] at ha; simp at ha
            | some u =>
              simp [AppState.init_xdg_surface, hs, roleBudget, hxdg, countEffects,
                List.filter, Effect.isGetToplevel]
          · simp [roleBudget, countEffects, List.filter, Effect.isGetToplevel]
        · simp [dispatchEvent, registry_event, h1, h2, countEffects, List.filter,
            roleBudget]
  | wmBase we =>
    cases we with
    | ping serial =>
      simp [dispatchEvent, wm_base_event, countEffects, List.filter,
        Effect.isGetToplevel, roleBudget]
  | xdgSurface xe =>
    cases xe with
    | configure serial =>
      cases hp : s.pending_resize with
      | none =>
        simp [dispatchEvent, xdg_surface_event, hp, countEffects, List.filter,
          Effect.isGetToplevel, roleBudget]
      | some sz =>
        cases hg : s.wgpu_state <;>
          simp [dispatchEvent, xdg_surface_event, hp, AppState.configure_wgpu, hg,
            countEffects, List.filter, Effect.isGetToplevel, roleBudget]
  | toplevel te =>
    cases te <;>
      simp [dispatchEvent, toplevel_event, countEffects, List.filter,
        Effect.isGetToplevel, roleBudget]

theorem dispatchEvents_role_budget (s : AppState) (es : List Event) :
    countEffects Effect.isGetToplevel (dispatchEvents s es).effects
      + roleBudget (dispatchEvents s es).state ≤ roleBudget s := by
  induction es generalizing s with
  | nil => simp [dispatchEvents, countEffects]
  | cons e rest ih =>
    simp only [dispatchEvents]
    split
    · next msg heq => exact dispatchEvent_role_budget s e
    · next heq =>
      have h1 := dispatchEvent_role_budget s e
      have h2 := ih (dispatchEvent s e).state
      simp only [countEffects_append]
      omega

theorem loopIter_role_budget (s : AppState) (b : List Event) :
    countEffects Effect.isGetToplevel (loopIter s b).effects
      + roleBudget (loopIter s b).state ≤ roleBudget s := by
  have h1 := dispatchEvents_role_budget s b
  simp only [loopIter]
  split
  · next msg heq => exact h1
  · next heq =>
    split
    · next hconf =>
      cases hg : (dispatchEvents s b).state.wgpu_state with
      | none =>
        simp only [draw, hg, countEffects_append]
        simpa [countEffects] using h1
      | some u =>
        simp only [draw, hg, countEffects_append]
        have hd : countEffects Effect.isGetToplevel [Effect.draw] = 0 := by
          simp [countEffects, List.filter, Effect.isGetToplevel]
        omega
    · next hconf => exact h1

theorem runLoop_role_budget (s : AppState) (batches : List (List Event)) :
    countEffects Effect.isGetToplevel (runLoop s batches).effects
      + roleBudget (runLoop s batches).state ≤ roleBudget s := by
  induction batches generalizing s with
  | nil => simp [runLoop, countEffects]
  | cons b rest ih =>
    simp only [runLoop]
    split
    · split
      · next msg heq => exact loopIter_role_budget s b
      · next heq =>
        have h1 := loopIter_role_budget s b
        have h2 := ih (loopIter s b).state
        simp only [countEffects_append]
        omega
    · simp [countEffects]

/-- C7: window-role assignment (the creation of the xdg_surface adapter
and xdg_toplevel role objects with the buffer-free initial commit) is
executed at most once per process lifetime, whatever the schedule of
events the initial dispatch and the main loop deliver: a second trigger
is ignored by the guard on xdg_surface rather than re-executed. -/
theorem c7_role_assignment_at_most_once (initialBatch : List Event)
    (batches : List (List Event)) :
    countEffects Effect.isGetToplevel (runMain initialBatch batches).effects ≤ 1 := by
  have h1 := dispatchEvents_role_budget AppState.initial initialBatch
  have hb : roleBudget AppState.initial = 1 := by simp [roleBudget, AppState.initial]
  simp only [runMain]
  split
  · next msg heq =>
    dsimp only
    omega
  · next heq =>
    have he : ((dispatchEvents AppState.initial initialBatch).state.init_wgpu).effects = []
        ∧ roleBudget ((dispatchEvents AppState.initial initialBatch).state.init_wgpu).state
          = roleBudget (dispatchEvents AppState.initial initialBatch).state := by
      cases hs : (dispatchEvents AppState.initial initialBatch).state.wl_surface <;>
        simp [AppState.init_wgpu, hs, roleBudget]
    rcases he with ⟨he1, he2⟩
    split
    · next msg2 heq2 =>
      dsimp only
      simp only [he1, List.append_nil]
      omega
    · next heq2 =>
      have h3 := runLoop_role_budget
        ((dispatchEvents AppState.initial initialBatch).state.init_wgpu).state batches
      dsimp only
      simp only [he1, List.append_nil, countEffects_append]
      omega

theorem isDraw_eq_true_iff (x : Effect) : Effect.isDraw x = true ↔ x = Effect.draw := by
  cases x <;> simp [Effect.isDraw]

theorem countDraw_dispatchEvents (s : AppState) (b : List Event) :
    countEffects Effect.isDraw (dispatchEvents s b).effects = 0 := by
  rw [countEffects_eq_zero]
  intro x hx
  by_contra hcon
  rw [Bool.not_eq_false, isDraw_eq_true_iff] at hcon
  subst hcon
  exact dispatchEvents_no_draw s b hx

/-
The pending-size translation never produces the literal zero size.
-/
theorem resolveSize_ne_zero (w h : Int) :
    resolveSize w h ≠ { width := 0, height := 0 } := by
  unfold resolveSize
  split
  · decide
  · next hne =>
    intro heq
    simp only [WindowSize.mk.injEq] at heq
    exact hne (by rw [Prod.mk.injEq]; exact heq)

theorem dispatchEvent_no_zero (s : AppState) (e : Event)
    (h1 : s.pending_resize ≠ some { width := 0, height := 0 })
    (h2 : s.size ≠ some { width := 0, height := 0 }) :
    (dispatchEvent s e).state.pending_resize ≠ some { width := 0, height := 0 } ∧
    (dispatchEvent s e).state.size ≠ some { width := 0, height := 0 } := by
  cases e with
  | registry re =>
    cases re with
    | globalRemove n => exact ⟨h1, h2⟩
    | global n interface v =>
      by_cases hc : interface = "wl_compositor"
      · simp only [dispatchEvent, registry_event]
        rw [if_pos hc]
        exact ⟨h1, h2⟩
      · by_cases hw : interface = "xdg_wm_base"
        · simp only [dispatchEvent, registry_event]
          rw [if_neg hc, if_pos hw]
          split
          · cases hs : s.wl_surface <;>
              simp [AppState.init_xdg_surface, hs] <;> exact ⟨h1, h2⟩
          · exact ⟨h1, h2⟩
        · simp only [dispatchEvent, registry_event]
          rw [if_neg hc, if_neg hw]
          exact ⟨h1, h2⟩
  | wmBase we =>
    cases we with
    | ping serial => exact ⟨h1, h2⟩
  | xdgSurface xe =>
    cases xe with
    | configure serial =>
      cases hp : s.pending_resize with
      | none =>
        simp only [dispatchEvent, xdg_surface_event, hp]
        exact ⟨by simp, h2⟩
      | some sz =>
        have hsz : sz ≠ { width := 0, height := 0 } := by
          intro hh
          exact h1 (by rw [hp, hh])
        cases hg : s.wgpu_state with
        | none =>
          simp [dispatchEvent, xdg_surface_event, hp, AppState.configure_wgpu, hg]
          exact h2
        | some u =>
          simp [dispatchEvent, xdg_surface_event, hp, AppState.configure_wgpu, hg]
          exact hsz
  | toplevel te =>
    cases te with
    | close => exact ⟨h1, h2⟩
    | configure w h =>
      simp only [dispatchEvent, toplevel_event]
      refine ⟨?_, h2⟩
      simp [resolveSize_ne_zero w h]
    | otherEvent => exact ⟨h1, h2⟩

theorem dispatchEvents_no_zero (s : AppState) (es : List Event)
    (h1 : s.pending_resize ≠ some { width := 0, height := 0 })
    (h2 : s.size ≠ some { width := 0, height := 0 }) :
    (dispatchEvents s es).state.pending_resize ≠ some { width := 0, height := 0 } ∧
    (dispatchEvents s es).state.size ≠ some { width := 0, height := 0 } := by
  induction es generalizing s with
  | nil => exact ⟨h1, h2⟩
  | cons e rest ih =>
    simp only [dispatchEvents]
    split
    · next heq => exact dispatchEvent_no_zero s e h1 h2
    · next heq =>
      have hh := dispatchEvent_no_zero s e h1 h2
      exact ih _ hh.1 hh.2

/-- C6: a toplevel configure proposing (0,0) records the default 320 x 320
as the pending size, and starting from any state in which neither the
pending nor the current size is the literal zero size (as in the initial
state), no event sequence can ever make either of them the literal
(0,0). -/
theorem c6_zero_proposal_resolves_to_default (s : AppState) (es : List Event)
    (h1 : s.pending_resize ≠ some { width := 0, height := 0 })
    (h2 : s.size ≠ some { width := 0, height := 0 }) :
    (toplevel_event s (ToplevelEvent.configure 0 0)).state.pending_resize
      = some { width := 320, height := 320 } ∧
    (dispatchEvents s es).state.pending_resize ≠ some { width := 0, height := 0 } ∧
    (dispatchEvents s es).state.size ≠ some { width := 0, height := 0 } := by
  refine ⟨?_, (dispatchEvents_no_zero s es h1 h2).1, (dispatchEvents_no_zero s es h1 h2).2⟩
  simp [toplevel_event, resolveSize, WindowSize.default]

/-- C6 witness at the initial state and a singleton schedule. -/
theorem c6_witness :
    (toplevel_event AppState.initial (ToplevelEvent.configure 0 0)).state.pending_resize
      = some { width := 320, height := 320 } ∧
    (dispatchEvents AppState.initial
      [Event.toplevel (ToplevelEvent.configure 0 0)]).state.pending_resize
      ≠ some { width := 0, height := 0 } ∧
    (dispatchEvents AppState.initial
      [Event.toplevel (ToplevelEvent.configure 0 0)]).state.size
      ≠ some { width := 0, height := 0 } :=
  c6_zero_proposal_resolves_to_default AppState.initial
    [Event.toplevel (ToplevelEvent.configure 0 0)] (by decide) (by decide)

/-- C5: for every surface configure event carrying a serial, an ack
echoing that same serial is the first request issued by the handler, even
when no size change is pending, and the configured flag is true
afterwards. The hypothesis covers exactly the states the program reaches:
either nothing is pending, or the GPU context already exists (init_wgpu
runs before the loop in main, and configure events arrive only inside the
loop, in response to the initial commit). -/
theorem c5_ack_and_configured (s : AppState) (serial : Nat)
    (h : s.pending_resize = none ∨ s.wgpu_state = some ()) :
    (xdg_surface_event s (XdgSurfaceEvent.configure serial)).effects.head?
      = some (Effect.ackConfigure serial) ∧
    (xdg_surface_event s (XdgSurfaceEvent.configure serial)).state.configured = true ∧
    (xdg_surface_event s (XdgSurfaceEvent.configure serial)).abortMsg = none := by
  cases hp : s.pending_resize with
  | none => simp [xdg_surface_event, hp]
  | some sz =>
    rcases h with h | h
    · rw [hp] at h; cases h
    · simp [xdg_surface_event, hp, AppState.configure_wgpu, h]

/-- C5 witness: an empty configure on the initial state is acked with the
same serial and sets configured. -/
theorem c5_witness :
    (xdg_surface_event AppState.initial (XdgSurfaceEvent.configure 11)).effects.head?
      = some (Effect.ackConfigure 11) ∧
    (xdg_surface_event AppState.initial (XdgSurfaceEvent.configure 11)).state.configured
      = true ∧
    (xdg_surface_event AppState.initial (XdgSurfaceEvent.configure 11)).abortMsg = none :=
  c5_ack_and_configured AppState.initial 11 (Or.inl rfl)

/-
A run of toplevel size proposals coalesces: it emits nothing and leaves
only the last proposal, resolved, in the pending slot.
-/
theorem toplevel_burst (sizes : List (Int × Int)) (s : AppState) (w h : Int) :
    dispatchEvents s
      ((sizes ++ [(w, h)]).map fun p => Event.toplevel (ToplevelEvent.configure p.1 p.2))
      = ⟨{ s with pending_resize := some (resolveSize w h) }, [], none⟩ := by
  induction sizes generalizing s with
  | nil => simp [dispatchEvents, dispatchEvent, toplevel_event]
  | cons q rest ih =>
    simp only [List.cons_append, List.map_cons, dispatchEvents, dispatchEvent,
      toplevel_event]
    simp only [List.append_eq]
    rw [ih]
    rfl

theorem dispatchEvents_append_ok (s : AppState) (xs ys : List Event)
    (hok : (dispatchEvents s xs).abortMsg = none) :
    dispatchEvents s (xs ++ ys)
      = ⟨(dispatchEvents (dispatchEvents s xs).state ys).state,
          (dispatchEvents s xs).effects
            ++ (dispatchEvents (dispatchEvents s xs).state ys).effects,
          (dispatchEvents (dispatchEvents s xs).state ys).abortMsg⟩ := by
  induction xs generalizing s with
  | nil => simp [dispatchEvents]
  | cons e rest ih =>
    simp only [List.cons_append, dispatchEvents]
    split
    · next msg heq =>
      exfalso
      simp only [dispatchEvents, heq] at hok
      exact Option.some_ne_none msg hok
    · next heq =>
      have hok2 : (dispatchEvents (dispatchEvent s e).state rest).abortMsg = none := by
        simp only [dispatchEvents, heq] at hok
        exact hok
      simp only [List.append_eq]
      rw [ih _ hok2]
      simp [List.append_assoc]

/-- C4: for every burst of toplevel size proposals ending in (w,h) and
followed by one acknowledged surface configure, the presentation surface
is reconfigured exactly once over the whole burst, with the last proposal
(w,h); the pending slot is cleared and (w,h) is promoted to the current
size. The hypotheses say that the GPU context exists, as it does whenever
the loop is running, and that the last proposal is not the (0,0)
client-chooses sentinel, which the code translates to the default size
before it is applied. -/
theorem c4_coalesced_single_reconfigure (s : AppState) (sizes : List (Int × Int))
    (w h : Int) (serial : Nat)
    (hg : s.wgpu_state = some ())
    (hnz : ¬(w = 0 ∧ h = 0)) :
    countEffects Effect.isConfigureWgpu
      (dispatchEvents s (sizeBurst (sizes ++ [(w, h)]) serial)).effects = 1 ∧
    Effect.configureWgpu w h ∈
      (dispatchEvents s (sizeBurst (sizes ++ [(w, h)]) serial)).effects ∧
    (dispatchEvents s (sizeBurst (sizes ++ [(w, h)]) serial)).state.pending_resize
      = none ∧
    (dispatchEvents s (sizeBurst (sizes ++ [(w, h)]) serial)).state.size
      = some { width := w, height := h } ∧
    (dispatchEvents s (sizeBurst (sizes ++ [(w, h)]) serial)).abortMsg = none := by
  have hres : resolveSize w h = { width := w, height := h } := by
    unfold resolveSize
    rw [if_neg]
    intro hc
    rw [Prod.mk.injEq] at hc
    exact hnz hc
  have hburst := toplevel_burst sizes s w h
  have happ := dispatchEvents_append_ok s
    ((sizes ++ [(w, h)]).map fun p => Event.toplevel (ToplevelEvent.configure p.1 p.2))
    [Event.xdgSurface (XdgSurfaceEvent.configure serial)]
    (by rw [hburst])
  rw [sizeBurst, happ, hburst]
  have hstep : dispatchEvents ({ s with pending_resize := some (resolveSize w h) })
      [Event.xdgSurface (XdgSurfaceEvent.configure serial)]
      = ⟨{ s with pending_resize := none, size := some (resolveSize w h), configured := true }, [Effect.ackConfigure serial, Effect.configureWgpu w h], none⟩ := by
    simp [dispatchEvents, dispatchEvent, xdg_surface_event, AppState.configure_wgpu,
      hg, hres]
  rw [hstep]
  refine ⟨?_, ?_, ?_, ?_, ?_⟩ <;>
    simp [countEffects, List.filter, Effect.isConfigureWgpu, hres]

/-- C4 witness: a burst of (100,100) then (800,600) followed by the ack of
serial 5 reconfigures once, to 800 x 600. -/
theorem c4_witness :
    countEffects Effect.isConfigureWgpu
      (dispatchEvents { AppState.initial with wgpu_state := some () }
        (sizeBurst ([(100, 100)] ++ [(800, 600)]) 5)).effects = 1 ∧
    Effect.configureWgpu 800 600 ∈
      (dispatchEvents { AppState.initial with wgpu_state := some () }
        (sizeBurst ([(100, 100)] ++ [(800, 600)]) 5)).effects ∧
    (dispatchEvents { AppState.initial with wgpu_state := some () }
      (sizeBurst ([(100, 100)] ++ [(800, 600)]) 5)).state.pending_resize = none ∧
    (dispatchEvents { AppState.initial with wgpu_state := some () }
      (sizeBurst ([(100, 100)] ++ [(800, 600)]) 5)).state.size
      = some { width := 800, height := 600 } ∧
    (dispatchEvents { AppState.initial with wgpu_state := some () }
      (sizeBurst ([(100, 100)] ++ [(800, 600)]) 5)).abortMsg = none :=
  c4_coalesced_single_reconfigure { AppState.initial with wgpu_state := some () }
    [(100, 100)] 800 600 5 rfl (by decide)

theorem runLoop_not_running (s : AppState) (batches : List (List Event))
    (h : s.running = false) :
    runLoop s batches = ⟨s, [], none⟩ := by
  cases batches <;> simp [runLoop, h]

/-- C1: amended. A close event sets running to false unconditionally and
the loop stops at the next check: no later iteration runs at all. The
iteration that dispatched the close event, however, still completes its
body, which performs at most one render step after the dispatch (and does
perform it when configured is true, as the counterexample shows), so the
loop exit happens after that final draw, not before it. -/
theorem c1_amended_close_stops_loop (s : AppState) (b : List Event)
    (rest : List (List Event))
    (hrun : s.running = true)
    (hok : (loopIter s b).abortMsg = none)
    (hclose : (loopIter s b).state.running = false) :
    runLoop s (b :: rest)
      = ⟨(loopIter s b).state, (loopIter s b).effects, none⟩ ∧
    countEffects Effect.isDraw (loopIter s b).effects ≤ 1 := by
  have hzero := countDraw_dispatchEvents s b
  constructor
  · simp only [runLoop, hrun, if_true]
    split
    · next msg heq => simp [hok] at heq
    · next heq =>
      rw [runLoop_not_running _ rest hclose]
      simp
  · simp only [loopIter]
    split
    · next msg heq =>
      dsimp only
      omega
    · next heq =>
      split
      · next hconf =>
        cases hgw : (dispatchEvents s b).state.wgpu_state with
        | none =>
          simp only [draw, hgw]
          simp only [countEffects_append]
          have hnil : countEffects Effect.isDraw ([] : List Effect) = 0 := rfl
          omega
        | some u =>
          simp only [draw, hgw]
          simp only [countEffects_append]
          have hone : countEffects Effect.isDraw [Effect.draw] = 1 := rfl
          omega
      · next hconf =>
        dsimp only
        omega

/-- C1 witness: from the reachable configured state, a batch carrying the
close event ends the loop with that iteration's own output. -/
theorem c1_witness :
    runLoop c1ReadyState [[Event.toplevel ToplevelEvent.close]]
      = ⟨(loopIter c1ReadyState [Event.toplevel ToplevelEvent.close]).state,
          (loopIter c1ReadyState [Event.toplevel ToplevelEvent.close]).effects, none⟩ ∧
    countEffects Effect.isDraw
      (loopIter c1ReadyState [Event.toplevel ToplevelEvent.close]).effects ≤ 1 :=
  c1_amended_close_stops_loop c1ReadyState [Event.toplevel ToplevelEvent.close] []
    (by decide) (by decide) (by decide)

theorem dispatchEvent_no_shell (s : AppState) (e : Event)
    (hw : announcesWmBase e = false) (hsc : isSurfaceConfigure e = false)
    (hc : s.configured = false) (hx : s.xdg_surface = none) :
    (dispatchEvent s e).state.configured = false ∧
    (dispatchEvent s e).state.xdg_surface = none ∧
    countEffects Effect.isGetToplevel (dispatchEvent s e).effects = 0 := by
  cases e with
  | registry re =>
    cases re with
    | globalRemove n => exact ⟨hc, hx, rfl⟩
    | global n interface v =>
      have hw2 : ¬interface = "xdg_wm_base" := by
        simpa [announcesWmBase] using hw
      by_cases hcomp : interface = "wl_compositor"
      · simp only [dispatchEvent, registry_event]
        rw [if_pos hcomp]
        exact ⟨hc, hx, rfl⟩
      · simp only [dispatchEvent, registry_event]
        rw [if_neg hcomp, if_neg hw2]
        exact ⟨hc, hx, rfl⟩
  | wmBase we =>
    cases we with
    | ping serial => exact ⟨hc, hx, rfl⟩
  | xdgSurface xe =>
    cases xe with
    | configure serial => simp [isSurfaceConfigure] at hsc
  | toplevel te =>
    cases te with
    | close => exact ⟨hc, hx, rfl⟩
    | configure w h => exact ⟨hc, hx, rfl⟩
    | otherEvent => exact ⟨hc, hx, rfl⟩

theorem dispatchEvents_no_shell (s : AppState) (es : List Event)
    (hall : ∀ e ∈ es, announcesWmBase e = false ∧ isSurfaceConfigure e = false)
    (hc : s.configured = false) (hx : s.xdg_surface = none) :
    (dispatchEvents s es).state.configured = false ∧
    (dispatchEvents s es).state.xdg_surface = none ∧
    countEffects Effect.isGetToplevel (dispatchEvents s es).effects = 0 := by
  induction es generalizing s with
  | nil => exact ⟨hc, hx, rfl⟩
  | cons e rest ih =>
    have he := hall e (by simp)
    have h1 := dispatchEvent_no_shell s e he.1 he.2 hc hx
    simp only [dispatchEvents]
    split
    · next heq => exact h1
    · next heq =>
      have h2 := ih _ (fun x hxm => hall x (by simp [hxm])) h1.1 h1.2.1
      refine ⟨h2.1, h2.2.1, ?_⟩
      simp [countEffects_append, h1.2.2, h2.2.2]

theorem loopIter_no_shell (s : AppState) (b : List Event)
    (hall : ∀ e ∈ b, announcesWmBase e = false ∧ isSurfaceConfigure e = false)
    (hc : s.configured = false) (hx : s.xdg_surface = none) :
    (loopIter s b).state.configured = false ∧
    (loopIter s b).state.xdg_surface = none ∧
    countEffects Effect.isGetToplevel (loopIter s b).effects = 0 ∧
    countEffects Effect.isDraw (loopIter s b).effects = 0 := by
  have hd := dispatchEvents_no_shell s b hall hc hx
  have hz := countDraw_dispatchEvents s b
  simp only [loopIter]
  split
  · next heq => exact ⟨hd.1, hd.2.1, hd.2.2, hz⟩
  · next heq =>
    split
    · next hconf => rw [hd.1] at hconf; simp at hconf
    · next hconf => exact ⟨hd.1, hd.2.1, hd.2.2, hz⟩

theorem runLoop_no_shell (s : AppState) (batches : List (List Event))
    (hall : ∀ b ∈ batches, ∀ e ∈ b, announcesWmBase e = false ∧ isSurfaceConfigure e = false)
    (hc : s.configured = false) (hx : s.xdg_surface = none) :
    (runLoop s batches).state.configured = false ∧
    (runLoop s batches).state.xdg_surface = none ∧
    countEffects Effect.isGetToplevel (runLoop s batches).effects = 0 ∧
    countEffects Effect.isDraw (runLoop s batches).effects = 0 := by
  induction batches generalizing s with
  | nil => exact ⟨hc, hx, rfl, rfl⟩
  | cons b rest ih =>
    simp only [runLoop]
    split
    · have h1 := loopIter_no_shell s b (hall b (by simp)) hc hx
      split
      · next heq => exact h1
      · next heq =>
        have h2 := ih _ (fun x hxm => hall x (by simp [hxm])) h1.1 h1.2.1
        refine ⟨h2.1, h2.2.1, ?_, ?_⟩ <;>
          simp [countEffects_append, h1.2.2.1, h1.2.2.2, h2.2.2.1, h2.2.2.2]
    · exact ⟨hc, hx, rfl, rfl⟩

/-- C2: amended. If neither the initial dispatch nor any loop batch ever
announces the xdg_wm_base global (and hence, since no xdg_surface object
can then exist, no surface configure event is ever delivered either), the
program does not abort with a missing-capability error: it completes
initialization, but the window role is never assigned, the configured
flag stays false, and no frame is ever rendered. -/
theorem c2_amended_no_shell_no_role_no_draw (initialBatch : List Event)
    (batches : List (List Event))
    (h1 : ∀ e ∈ initialBatch, announcesWmBase e = false ∧ isSurfaceConfigure e = false)
    (h2 : ∀ b ∈ batches, ∀ e ∈ b, announcesWmBase e = false ∧ isSurfaceConfigure e = false) :
    (runMain initialBatch batches).state.configured = false ∧
    (runMain initialBatch batches).state.xdg_surface = none ∧
    countEffects Effect.isGetToplevel (runMain initialBatch batches).effects = 0 ∧
    countEffects Effect.isDraw (runMain initialBatch batches).effects = 0 := by
  have hd := dispatchEvents_no_shell AppState.initial initialBatch h1 rfl rfl
  have hz := countDraw_dispatchEvents AppState.initial initialBatch
  simp only [runMain]
  split
  · next heq => exact ⟨hd.1, hd.2.1, hd.2.2, hz⟩
  · next heq =>
    have he : ((dispatchEvents AppState.initial initialBatch).state.init_wgpu).effects = []
        ∧ ((dispatchEvents AppState.initial initialBatch).state.init_wgpu).state.configured
          = (dispatchEvents AppState.initial initialBatch).state.configured
        ∧ ((dispatchEvents AppState.initial initialBatch).state.init_wgpu).state.xdg_surface
          = (dispatchEvents AppState.initial initialBatch).state.xdg_surface := by
      cases hs : (dispatchEvents AppState.initial initialBatch).state.wl_surface <;>
        simp [AppState.init_wgpu, hs]
    split
    · next heq2 =>
      dsimp only
      refine ⟨he.2.1.trans hd.1, he.2.2.trans hd.2.1, ?_, ?_⟩ <;>
        simp [countEffects_append, he.1, hd.2.2, hz]
    · next heq2 =>
      have hl := runLoop_no_shell
        ((dispatchEvents AppState.initial initialBatch).state.init_wgpu).state batches
        h2 (he.2.1.trans hd.1) (he.2.2.trans hd.2.1)
      dsimp only
      refine ⟨hl.1, hl.2.1, ?_, ?_⟩ <;>
        simp [countEffects_append, he.1, hd.2.2, hz, hl.2.2.1, hl.2.2.2]

/-- C2 witness: only wl_compositor is announced and a ping arrives in the
loop; the run assigns no role, stays unconfigured and draws nothing. -/
theorem c2_witness :
    (runMain [Event.registry (RegistryEvent.global 1 "wl_compositor" 6)]
      [[Event.wmBase (WmBaseEvent.ping 9)]]).state.configured = false ∧
    (runMain [Event.registry (RegistryEvent.global 1 "wl_compositor" 6)]
      [[Event.wmBase (WmBaseEvent.ping 9)]]).state.xdg_surface = none ∧
    countEffects Effect.isGetToplevel
      (runMain [Event.registry (RegistryEvent.global 1 "wl_compositor" 6)]
        [[Event.wmBase (WmBaseEvent.ping 9)]]).effects = 0 ∧
    countEffects Effect.isDraw
      (runMain [Event.registry (RegistryEvent.global 1 "wl_compositor" 6)]
        [[Event.wmBase (WmBaseEvent.ping 9)]]).effects = 0 :=
  c2_amended_no_shell_no_role_no_draw
    [Event.registry (RegistryEvent.global 1 "wl_compositor" 6)]
    [[Event.wmBase (WmBaseEvent.ping 9)]] (by decide) (by decide)
